import Mathlib

/-!
Verification of the jupyter-mcp-setup repository's runtime-orchestration core
against its natural-language specification.

The Python sources under `src/jupyter_mcp_setup/` are shallowly embedded:
strings become `List Char`, regular-expression scraping becomes an explicit
leftmost-match scanner, dictionaries become ordered association lists, the
filesystem and subprocess effects become explicit action traces, and failure
(`raise`) becomes `Option`/`Except`.
-/

namespace JupyterMcpSetup

/-! ### Character classes

`isLowerHex` models the regex character class `[a-f0-9]` used both by the
output-scraping patterns and by `EnvironmentManager.validate_token`.
`Char.isDigit` models `\d` for the ASCII digits that appear in port numbers
(the only digits produced or consumed on the modelled lines). -/

def isLowerHex (c : Char) : Bool := c.isDigit || (('a') ≤ c && c ≤ ('f'))

/-- Strip a literal from the front of a character list (regex literal match):
returns the remainder on success. -/
def stripPfx : List Char → List Char → Option (List Char)
  | [], s => some s
  | _ :: _, [] => none
  | a :: as, b :: bs => if a = b then stripPfx as bs else none

/-- One attempt of a scraping pattern `lit1 (\d+) lit2 ([a-f0-9]+)` at the
start of `s` (source: the four regexes in
`JupyterMCPServerSetup._extract_jupyter_details`).  Both quantified groups
are greedy and are followed by a character outside their class (after the
digits comes the literal starting with a slash; the hex group ends the
pattern), so maximal munch is exactly the backtracking regex semantics. -/
def matchPat (l1 l2 : List Char) (s : List Char) : Option (List Char × List Char) :=
  match stripPfx l1 s with
  | none => none
  | some r1 =>
    if (r1.takeWhile Char.isDigit).isEmpty then none
    else
      match stripPfx l2 (r1.dropWhile Char.isDigit) with
      | none => none
      | some r3 =>
        if (r3.takeWhile isLowerHex).isEmpty then none
        else some (r1.takeWhile Char.isDigit, r3.takeWhile isLowerHex)

/-- Leftmost match of one pattern over a line, as `re.search` scans start
positions left to right. -/
def searchPat (l1 l2 : List Char) : List Char → Option (List Char × List Char)
  | [] => matchPat l1 l2 []
  | c :: cs =>
    match matchPat l1 l2 (c :: cs) with
    | some r => some r
    | none => searchPat l1 l2 cs

/-- Literal head of the two `localhost` patterns. -/
def litLocalhost : List Char := ("http://localhost:").data

/-- Literal head of the two `127.0.0.1` patterns. -/
def lit127 : List Char := ("http://127.0.0.1:").data

/-- Literal between port and token when the `/lab` path segment is present. -/
def litLab : List Char := ("/lab?token=").data

/-- Literal between port and token when the path segment is absent. -/
def litRoot : List Char := ("/?token=").data

/-- `int()` on a captured digit string. -/
def digitsToNat (ds : List Char) : Nat :=
  ds.foldl (fun n c => 10 * n + (c.toNat - ('0').toNat)) 0

/-- The three fields `_extract_jupyter_details` assigns on a successful
match: `self.jupyter_port`, `self.jupyter_token`, `self.jupyter_url`. -/
structure JupyterDetails where
  port : Nat
  token : List Char
  url : List Char
  deriving DecidableEq, Repr

/-- The pattern loop of `_extract_jupyter_details`: first pattern that
matches with a positive port wins; a matched port of zero falls through to
the next pattern.  On success the URL is rebuilt as
`f"http://localhost:{port}"` regardless of which host literal matched. -/
def tryPatterns (line : List Char) : List (List Char × List Char) → Option JupyterDetails
  | [] => none
  | (l1, l2) :: rest =>
    match searchPat l1 l2 line with
    | some (ds, tk) =>
      let port := digitsToNat ds
      if 0 < port then some ⟨port, tk, litLocalhost ++ (Nat.repr port).data⟩
      else tryPatterns line rest
    | none => tryPatterns line rest

/-- `JupyterMCPServerSetup._extract_jupyter_details` (server_setup.py
lines 385-406), with its fixed ordered pattern list. -/
def extractJupyterDetails (line : List Char) : Option JupyterDetails :=
  tryPatterns line
    [(litLocalhost, litLab), (litLocalhost, litRoot), (lit127, litLab), (lit127, litRoot)]

/-- A log line embedding one of the four supported URL shapes:
host (`localhost` when `hostLocal`, else `127.0.0.1`), port digits `ds`,
path segment (`/lab` when `lab`, else none), `?token=` and the token. -/
def urlLine (hostLocal lab : Bool) (pre ds tok post : List Char) : List Char :=
  pre ++ ((match hostLocal with
    | true => litLocalhost
    | false => lit127) ++
    (ds ++ ((match lab with
      | true => litLab
      | false => litRoot) ++ (tok ++ post))))

/-! ### Token and URL validation (`EnvironmentManager`) -/

/-- Python `re.match(r'^[a-f0-9]+$', s)` as a predicate.  In Python, `$`
matches at the end of the string or just before a single newline at the end
of the string, so the pattern accepts one-or-more lowercase hex digits
optionally followed by exactly one trailing newline. -/
def tokenRegexMatch (s : List Char) : Bool :=
  let core := if s.getLast? = some ('\n') then s.dropLast else s
  !core.isEmpty && core.all isLowerHex

/-- `EnvironmentManager.validate_token` (server_setup.py lines 193-201):
reject empty or shorter-than-8 tokens, then apply the hex regex. -/
def validate_token (token : List Char) : Bool :=
  if token.isEmpty || token.length < 8 then false
  else tokenRegexMatch token

/-- Characters `urllib.parse` accepts inside a URL scheme. -/
def isSchemeChar (c : Char) : Bool :=
  c.isAlpha || c.isDigit || c = ('+') || c = ('-') || c = ('.')

/-- `EnvironmentManager.validate_url` (server_setup.py lines 182-191):
`urllib.parse.urlparse` followed by the check that both `scheme` and
`netloc` are non-empty.  `urlparse` is modelled for the absolute
`scheme://host...` URLs this program handles: the scheme is the non-empty
run of scheme characters (starting with a letter) before the first colon,
and the netloc is the run after `//` up to the next `/`, `?` or `#`. -/
def validate_url (url : List Char) : Bool :=
  let beforeColon := url.takeWhile (fun c => c != (':'))
  let afterColon := (url.dropWhile (fun c => c != (':'))).drop 1
  let hasScheme :=
    (!beforeColon.isEmpty) && decide (beforeColon.length < url.length)
      && (match beforeColon with
          | c :: _ => c.isAlpha
          | [] => false)
      && beforeColon.all isSchemeChar
  let rest := if hasScheme then afterColon else url
  let netloc : List Char :=
    match rest with
    | ('/') :: ('/') :: r => r.takeWhile (fun c => c != ('/') && c != ('?') && c != ('#'))
    | _ => []
  hasScheme && !netloc.isEmpty

/-- `EnvironmentManager.create_jupyter_environment` (server_setup.py lines
203-243): validate the URL, then the token, then build the fixed ordered
environment mapping and reject it if any value is empty.  A `raise` is
modelled as `none`; only on full success is the mapping produced (the
source assigns `self.validated_env` only after every check passes, so no
partial mapping ever exists). -/
def create_jupyter_environment (jupyter_url jupyter_token notebook_path : List Char) :
    Option (List (List Char × List Char)) :=
  if !(validate_url jupyter_url) then none
  else if !(validate_token jupyter_token) then none
  else
    let env_vars : List (List Char × List Char) :=
      [ (("TRANSPORT").data, ("stdio").data),
        (("PROVIDER").data, ("jupyter").data),
        (("DOCUMENT_URL").data, jupyter_url),
        (("DOCUMENT_TOKEN").data, jupyter_token),
        (("DOCUMENT_ID").data, notebook_path),
        (("RUNTIME_URL").data, jupyter_url),
        (("RUNTIME_TOKEN").data, jupyter_token),
        (("START_NEW_RUNTIME").data, ("true").data) ]
    if env_vars.any (fun kv => kv.2.isEmpty) then none
    else some env_vars

/-! ### Claude settings document (`ClaudeConfigManager`) -/

/-- JSON values as far as the settings document needs them. -/
inductive JVal where
  | str (s : List Char)
  | num (n : Int)
  | bool (b : Bool)
  | null
  | arr (xs : List JVal)
  | obj (kvs : List (List Char × JVal))

/-- First-match lookup in an ordered JSON object (Python `key in dict` /
`dict[key]`; JSON objects parsed by `json.load` have unique keys). -/
def lookupKey (kvs : List (List Char × JVal)) (k : List Char) : Option JVal :=
  match kvs with
  | [] => none
  | (k', v) :: rest => if k' = k then some v else lookupKey rest k

/-- In-place update of an existing key, else append (Python dict item
assignment preserves insertion order). -/
def setKey (kvs : List (List Char × JVal)) (k : List Char) (v : JVal) :
    List (List Char × JVal) :=
  match kvs with
  | [] => [(k, v)]
  | (k', v') :: rest => if k' = k then (k', v) :: rest else (k', v') :: setKey rest k v

/-- Python `server_name in xs` for a JSON array: string equality against
each element (a non-string element never equals a string). -/
def arrContainsStr (xs : List JVal) (s : List Char) : Bool :=
  xs.any (fun v =>
    match v with
    | JVal.str t => decide (t = s)
    | _ => false)

/-- Python substring test `needle in hay` (used when the stored value is a
string rather than a list). -/
def infixOf (needle hay : List Char) : Bool :=
  match hay with
  | [] => needle.isEmpty
  | _ :: t => (stripPfx needle hay).isSome || infixOf needle t

/-- The fixed settings key. -/
def enabledKey : List Char := ("enabledMcpjsonServers").data

/-- `ClaudeConfigManager.update_enabled_mcp_servers` (server_setup.py lines
132-145): ensure the `enabledMcpjsonServers` key exists (appended at the
end, as Python dict insertion does), then append the server name to the
array only if absent.  When the stored value is a string, `in` is a
substring test and a missing name then hits `str.append` which raises
(`none`); `in` on any other non-container value raises `TypeError`
(`none`). -/
def update_enabled_mcp_servers (server_name : List Char)
    (settings : List (List Char × JVal)) : Option (List (List Char × JVal)) :=
  let s1 :=
    match lookupKey settings enabledKey with
    | some _ => settings
    | none => settings ++ [(enabledKey, JVal.arr [])]
  match lookupKey s1 enabledKey with
  | some (JVal.arr xs) =>
    if arrContainsStr xs server_name then some s1
    else some (setKey s1 enabledKey (JVal.arr (xs ++ [JVal.str server_name])))
  | some (JVal.str s) => if infixOf server_name s then some s1 else none
  | some _ => none
  | none => none

/-! ### Paths (`PathManager`, `ClaudeConfigManager`, `utils`) -/

/-- `utils.get_virtual_env_python`: `project_dir / "jupyter-mcp-env" / "bin"
/ "python"` (its existence and executability checks are filesystem
preconditions of a successful run). -/
def venvPythonPath (projectDir : List Char) : List Char :=
  projectDir ++ ("/jupyter-mcp-env/bin/python").data

/-- `PathManager.resolve_configuration_paths`: the primary discovery
document lives at `<output_dir>/.mcp.json`. -/
def mcpConfigPathOf (outputDir : List Char) : List Char :=
  outputDir ++ ("/.mcp.json").data

/-- `ClaudeConfigManager.get_claude_config_path`:
`<project_dir>/.claude/settings.local.json`. -/
def claudeSettingsPathOf (projectDir : List Char) : List Char :=
  projectDir ++ ("/.claude/settings.local.json").data

/-! ### MCP config generation and bridge launch (`JupyterMCPServerSetup`) -/

/-- The module-invocation arguments shared by the bridge launch and the
discovery document. -/
def mcpArgs : List (List Char) := [("-m").data, ("jupyter_mcp_server").data]

/-- One entry of the discovery document: `{command, args, env}`. -/
structure McpServerEntry where
  command : List Char
  args : List (List Char)
  env : List (List Char × List Char)

/-- The discovery document: `{"mcpServers": {...}}`. -/
structure McpConfig where
  mcpServers : List (List Char × McpServerEntry)

/-- The facts the orchestrator holds when it starts the bridge and writes
configuration: the running interpreter (`sys.executable`), the project
directory, and the extracted connection facts. -/
structure OrchFacts where
  sysExecutable : List Char
  projectDir : List Char
  jupyterUrl : List Char
  jupyterToken : List Char
  docId : List Char

/-- The launch tuple of `JupyterMCPServerSetup.start_mcp_server`
(server_setup.py lines 408-446): command `venv_python`, args
`["-m", "jupyter_mcp_server"]`, environment from
`create_jupyter_environment` (then merged over `os.environ`). -/
def startMcpLaunch (st : OrchFacts) :
    Option (List Char × List (List Char) × List (List Char × List Char)) :=
  (create_jupyter_environment st.jupyterUrl st.jupyterToken st.docId).map
    (fun ev => (venvPythonPath st.projectDir, mcpArgs, ev))

/-- `JupyterMCPServerSetup._generate_mcp_config` (server_setup.py lines
490-511): recompute the environment via `create_jupyter_environment` and
serialize `{"mcpServers": {"jupyter": {"command": sys.executable, "args":
["-m", "jupyter_mcp_server"], "env": env_vars}}}`. -/
def generateMcpConfigFile (st : OrchFacts) : Option McpConfig :=
  (create_jupyter_environment st.jupyterUrl st.jupyterToken st.docId).map
    (fun ev => ⟨[(("jupyter").data, ⟨st.sysExecutable, mcpArgs, ev⟩)]⟩)

/-- The filesystem operations of one `.mcp.json` write. -/
inductive FileOp where
  | openWrite (p : List Char)
  | writeAll (p : List Char) (data : List Char)
  | closeF (p : List Char)
  | rename (src dst : List Char)
  deriving DecidableEq, Repr

/-- The write plan of `_generate_mcp_config` lines 510-511:
`with open(self.mcp_config_path, 'w') as f: json.dump(config, f, indent=2)`
is a direct open-for-write of the final path, a dump, and a close. -/
def mcpConfigWritePlan (p : List Char) (payload : List Char) : List FileOp :=
  [FileOp.openWrite p, FileOp.writeAll p payload, FileOp.closeF p]

/-- Modelled from the spec: a write plan is atomic (temp-write + rename or
equivalent) when the final path is produced by a rename and is never itself
opened or written directly, so a concurrent reader of the final path can
never observe a partial file. -/
def atomicWritePlan (ops : List FileOp) (final : List Char) : Bool :=
  (ops.any fun op =>
    match op with
    | FileOp.rename _ dst => decide (dst = final)
    | _ => false)
  && (ops.all fun op =>
    match op with
    | FileOp.openWrite q => decide (q ≠ final)
    | FileOp.writeAll q _ => decide (q ≠ final)
    | _ => true)

/-! ### Cleanup (`JupyterMCPServerSetup.cleanup`) -/

/-- Failure injection for one supervised process being stopped:
`terminate()` may raise, `wait(timeout)` may time out.  A `kill()` on a
still-unreaped process object is treated as non-raising. -/
structure ProcStop where
  terminateRaises : Bool
  waitTimesOut : Bool

/-- Python exceptions crossing the modelled boundaries. -/
inductive PyExc where
  | generic
  | timeoutExpired
  deriving DecidableEq, Repr

/-- The environment `cleanup` runs in: which process objects exist, the
cleanup flag, whether the config file exists, and failure injections. -/
structure CleanupEnv where
  mcp : Option ProcStop
  jup : Option ProcStop
  cleanupOnExit : Bool
  configExists : Bool
  unlinkRaises : Bool
  outputDir : List Char
  projectDir : List Char

/-- The three cleanup steps named by the spec. -/
inductive CleanupStep where
  | stopMcp
  | stopJup
  | removeConfig
  deriving DecidableEq, Repr

def terminateOp (p : ProcStop) : Except PyExc Unit :=
  if p.terminateRaises then Except.error PyExc.generic else Except.ok ()

def waitOp (p : ProcStop) : Except PyExc Unit :=
  if p.waitTimesOut then Except.error PyExc.timeoutExpired else Except.ok ()

/-- `kill()` (treated as non-raising, see `ProcStop`). -/
def killOp : Except PyExc Unit := Except.ok ()

/-- One `try: terminate(); wait(t) except TimeoutExpired: kill() except
Exception: log` block of `cleanup` (the graceful timeout only affects how
long the wait blocks, not the result structure). -/
def tryStopBlock (p : ProcStop) : Except PyExc Unit :=
  match (do terminateOp p; waitOp p : Except PyExc Unit) with
  | Except.error PyExc.timeoutExpired => killOp
  | Except.error PyExc.generic => Except.ok ()
  | Except.ok _ => Except.ok ()

def unlinkOp (e : CleanupEnv) : Except PyExc Unit :=
  if e.unlinkRaises then Except.error PyExc.generic else Except.ok ()

/-- The `if self.cleanup_on_exit: try: if exists: unlink() except
Exception: log` block; the removal step counts as attempted whenever the
unlink is reached. -/
def tryRemoveBlock (e : CleanupEnv) : List CleanupStep :=
  if e.cleanupOnExit then
    if e.configExists then
      match unlinkOp e with
      | Except.error _ => [CleanupStep.removeConfig]
      | Except.ok _ => [CleanupStep.removeConfig]
    else []
  else []

/-- `JupyterMCPServerSetup.cleanup` (server_setup.py lines 534-569):
terminate the MCP server, then Jupyter, then delete the config file,
each in its own swallow-all block. -/
def cleanup (e : CleanupEnv) : Except PyExc (List CleanupStep) := do
  let s1 : List CleanupStep ←
    match e.mcp with
    | none => pure []
    | some p => do
      let _ ← tryStopBlock p
      pure [CleanupStep.stopMcp]
  let s2 : List CleanupStep ←
    match e.jup with
    | none => pure []
    | some p => do
      let _ ← tryStopBlock p
      pure [CleanupStep.stopJup]
  pure (s1 ++ s2 ++ tryRemoveBlock e)

/-- The paths `cleanup` actually deletes: only the `.mcp.json` file, and
only when cleanup is requested, the file exists and the unlink succeeds. -/
def cleanupDeletions (e : CleanupEnv) : List (List Char) :=
  if e.cleanupOnExit && e.configExists && !e.unlinkRaises then
    [mcpConfigPathOf e.outputDir]
  else []

/-! ### Signals and exit codes (`_signal_handler`, `cli.main`) -/

inductive Sig where
  | sigint
  | sigterm
  deriving DecidableEq, Repr

inductive SigDisposition where
  | gracefulHandler
  | defaultDisposition
  deriving DecidableEq, Repr

/-- `JupyterMCPServerSetup.__init__` lines 298-299 install the same
`_signal_handler` for both SIGINT and SIGTERM. -/
def installedHandler : Sig → SigDisposition
  | Sig.sigint => SigDisposition.gracefulHandler
  | Sig.sigterm => SigDisposition.gracefulHandler

/-- `JupyterMCPServerSetup._signal_handler` (server_setup.py lines
301-305): run `cleanup()` then `sys.exit(0)`. -/
def signalHandlerRun (e : CleanupEnv) : Except PyExc (List CleanupStep) × Nat :=
  (cleanup e, 0)

/-- The exception-to-exit-code mapping of `cli.main` lines 127-141. -/
inductive CliExcept where
  | installationError
  | validationError
  | serverSetupError
  | setupError
  | keyboardInterrupt
  | unexpected
  deriving DecidableEq, Repr

def cliExitCode : CliExcept → Nat
  | CliExcept.keyboardInterrupt => 130
  | _ => 1

/-! ### Installer (`JupyterMCPInstaller`) -/

/-- Outcome oracle for the external effects `install` performs. -/
structure InstallWorld where
  pythonVersionOk : Bool
  venvExists : Bool
  structureValid : Bool
  importOk : Bool
  createOk : Bool
  pipUpgradeOk : Bool
  depOk : Nat → Bool
  smokeImportOk : Bool
  smokeHelpOk : Bool

/-- Commands and filesystem effects of the installer, in execution order. -/
inductive InstallAction where
  | probeImport
  | removeVenvDir
  | createVenvDir
  | pipUpgrade
  | pipInstallDep (i : Nat)
  | smokeImport
  | smokeHelp
  deriving DecidableEq, Repr

/-- Which installer actions mutate the filesystem or the environment. -/
def destructive : InstallAction → Bool
  | InstallAction.removeVenvDir => true
  | InstallAction.createVenvDir => true
  | InstallAction.pipUpgrade => true
  | InstallAction.pipInstallDep _ => true
  | _ => false

/-- The fixed ordered dependency list of
`JupyterMCPInstaller.install_dependencies` (installer.py lines 153-168). -/
def dependencies : List (List Char) :=
  [ ("jupyter-kernel-client>=0.7.3").data,
    ("jupyter-nbmodel-client>=0.13.5").data,
    ("mcp[cli]>=1.10.1").data,
    ("pydantic").data,
    ("uvicorn").data,
    ("click").data,
    ("fastapi").data,
    ("ipykernel").data,
    ("jupyter_server>=1.6,<3").data,
    ("jupyterlab==4.4.1").data,
    ("jupyter-collaboration==4.0.2").data,
    ("datalayer_pycrdt==0.12.17").data,
    ("jupyter_mcp_server").data,
    ("psutil>=5.0.0").data ]

/-- `JupyterMCPInstaller.check_existing_installation` (installer.py lines
63-94): missing venv or invalid structure short-circuit to `False` without
running the probe; otherwise the probe import's success decides. -/
def check_existing_installation (w : InstallWorld) : Bool × List InstallAction :=
  if !w.venvExists then (false, [])
  else if w.structureValid then (w.importOk, [InstallAction.probeImport])
  else (false, [])

/-- Sequential dependency installation: each attempt is recorded; the first
failure aborts (run_command raises on non-zero exit). -/
def installDeps (w : InstallWorld) (i : Nat) : List (List Char) → Bool × List InstallAction
  | [] => (true, [])
  | _ :: rest =>
    if w.depOk i then
      let r := installDeps w (i + 1) rest
      (r.1, InstallAction.pipInstallDep i :: r.2)
    else (false, [InstallAction.pipInstallDep i])

/-- `JupyterMCPInstaller.install` (installer.py lines 210-252): check the
interpreter version; when not forcing, probe the existing installation and
return immediately if it is valid; otherwise remove any existing
environment, create a fresh one, upgrade pip, install the dependency list
sequentially, and run the two smoke checks.  The action list records every
external effect attempted, including those of a failing run. -/
def install (w : InstallWorld) (force_reinstall : Bool) :
    Except (List Char) Bool × List InstallAction :=
  if !w.pythonVersionOk then (Except.error (("Python version too old").data), [])
  else
    let probe := if force_reinstall then (false, []) else check_existing_installation w
    if probe.1 then (Except.ok true, probe.2)
    else
      let acts1 := probe.2 ++
        (if w.venvExists then [InstallAction.removeVenvDir] else []) ++
        [InstallAction.createVenvDir]
      if !w.createOk then (Except.error (("Failed to create virtual environment").data), acts1)
      else if !w.pipUpgradeOk then
        (Except.error (("Failed to upgrade pip").data), acts1 ++ [InstallAction.pipUpgrade])
      else
        let deps := installDeps w 0 dependencies
        let acts2 := acts1 ++ [InstallAction.pipUpgrade] ++ deps.2
        if !deps.1 then (Except.error (("Failed to install dependencies").data), acts2)
        else if !w.smokeImportOk then
          (Except.error (("Installation validation failed").data), acts2 ++ [InstallAction.smokeImport])
        else if !w.smokeHelpOk then
          (Except.error (("Installation validation failed").data),
            acts2 ++ [InstallAction.smokeImport, InstallAction.smokeHelp])
        else (Except.ok true, acts2 ++ [InstallAction.smokeImport, InstallAction.smokeHelp])

/-! ### The orchestration run (`JupyterMCPServerSetup.run`) -/

/-- Observable events of one orchestration run, in order. -/
inductive Event where
  | launchJupyter
  | extractFacts
  | launchBridge
  | confirmBridge
  | writeMcpConfig
  | writeClaudeSettings
  | monitorInterrupted
  | monitorProcessDied
  | stopMcp
  | stopJup
  | removeConfig
  deriving DecidableEq, Repr

/-- Oracle for the external outcomes one run observes. -/
structure RunEnv where
  extracted : Option (Nat × List Char)
  docId : List Char
  bridgeAlive : Bool
  claudeEnabled : Bool
  interrupted : Bool
  cleanupOnExit : Bool
  preexistingConfig : Bool

/-- The URL `_extract_jupyter_details` stores:
`f"http://localhost:{port}"`. -/
def jupyterUrlOf (port : Nat) : List Char :=
  litLocalhost ++ (Nat.repr port).data

/-- The cleanup events of `run`'s `finally` block, given which processes
exist and whether the config file exists. -/
def cleanupEvents (mcpP jupP cleanupOnExit configExists : Bool) : List Event :=
  (if mcpP then [Event.stopMcp] else []) ++
  (if jupP then [Event.stopJup] else []) ++
  (if cleanupOnExit && configExists then [Event.removeConfig] else [])

/-- `JupyterMCPServerSetup.run` (server_setup.py lines 571-606) as an event
trace: start Jupyter and scrape its output; on complete facts start the MCP
server (guarded on port and token being set, building the environment
first), confirm it survived the 2-second startup delay, write the
configuration files, monitor until interrupt or process death, and always
run cleanup in the `finally` block. -/
def runModel (env : RunEnv) : Bool × List Event :=
  match env.extracted with
  | none =>
    (false, Event.launchJupyter ::
      cleanupEvents false true env.cleanupOnExit env.preexistingConfig)
  | some (port, tok) =>
    let e1 : List Event := [Event.launchJupyter, Event.extractFacts]
    if port = 0 then
      (false, e1 ++ cleanupEvents false true env.cleanupOnExit env.preexistingConfig)
    else if tok.isEmpty then
      (false, e1 ++ cleanupEvents false true env.cleanupOnExit env.preexistingConfig)
    else
      match create_jupyter_environment (jupyterUrlOf port) tok env.docId with
      | none =>
        (false, e1 ++ cleanupEvents false true env.cleanupOnExit env.preexistingConfig)
      | some _ =>
        let e2 := e1 ++ [Event.launchBridge]
        if !env.bridgeAlive then
          (false, e2 ++ cleanupEvents true true env.cleanupOnExit env.preexistingConfig)
        else
          let e3 := e2 ++ [Event.confirmBridge, Event.writeMcpConfig] ++
            (if env.claudeEnabled then [Event.writeClaudeSettings] else [])
          if env.interrupted then
            (true, e3 ++ [Event.monitorInterrupted] ++
              cleanupEvents true true env.cleanupOnExit true)
          else
            (false, e3 ++ [Event.monitorProcessDied] ++
              cleanupEvents true true env.cleanupOnExit true)

/-- `allPreceded a b l` holds when no occurrence of `b` in `l` comes before
the first occurrence of `a` (so every `b` is preceded by an `a`). -/
def allPreceded (a b : Event) : List Event → Bool
  | [] => true
  | x :: xs => if x = b then false else if x = a then true else allPreceded a b xs

/-- The characters between the two occurrences of the letter aitch in the
`localhost` literal. -/
def locSeg1 : List Char := ("ttp://local").data

/-- The characters after the second occurrence. -/
def locSeg2 : List Char := ("ost:").data

/-- The tail of the `127.0.0.1` literal (no aitch). -/
def tail127 : List Char := ("ttp://127.0.0.1:").data

/-! ## Lemmas about the scraping scanner -/

theorem stripPfx_append (xs m : List Char) : stripPfx xs (xs ++ m) = some m := by
  induction xs with
  | nil => rfl
  | cons a as ih => simp [stripPfx, ih]

theorem isEmpty_false_of_ne_nil {xs : List Char} (h : xs ≠ []) : xs.isEmpty = false := by
  cases xs with
  | nil => exact absurd rfl h
  | cons a as => rfl

theorem takeWhile_all (p : Char → Bool) (xs : List Char) (h : ∀ x ∈ xs, p x = true) :
    xs.takeWhile p = xs := by
  induction xs with
  | nil => rfl
  | cons a as ih =>
    rw [List.takeWhile_cons_of_pos (h a (List.mem_cons_self a as)),
      ih (fun x hx => h x (List.mem_cons_of_mem a hx))]

theorem takeWhile_all_append (p : Char → Bool) (xs : List Char)
    (h : ∀ x ∈ xs, p x = true) (y : Char) (hy : p y = false) (ys : List Char) :
    (xs ++ y :: ys).takeWhile p = xs := by
  induction xs with
  | nil => simp [List.takeWhile_cons, hy]
  | cons a as ih =>
    rw [List.cons_append, List.takeWhile_cons_of_pos (h a (List.mem_cons_self a as)),
      ih (fun x hx => h x (List.mem_cons_of_mem a hx))]

theorem dropWhile_all_append (p : Char → Bool) (xs : List Char)
    (h : ∀ x ∈ xs, p x = true) (y : Char) (hy : p y = false) (ys : List Char) :
    (xs ++ y :: ys).dropWhile p = y :: ys := by
  induction xs with
  | nil => simp [List.dropWhile_cons, hy]
  | cons a as ih =>
    rw [List.cons_append, List.dropWhile_cons_of_pos (h a (List.mem_cons_self a as)),
      ih (fun x hx => h x (List.mem_cons_of_mem a hx))]

/-- A successful pattern attempt at the start of the embedded URL. -/
theorem matchPat_some (l1 l2t ds tok post : List Char)
    (hds : ds ≠ []) (hdd : ∀ c ∈ ds, c.isDigit = true)
    (htok : tok ≠ []) (hth : ∀ c ∈ tok, isLowerHex c = true)
    (hpost1 : ∀ c ∈ post.take 1, isLowerHex c = false) :
    matchPat l1 (('/') :: l2t) (l1 ++ (ds ++ ((('/') :: l2t) ++ (tok ++ post))))
      = some (ds, tok) := by
  have h1 : (ds ++ ((('/') :: l2t) ++ (tok ++ post))).takeWhile Char.isDigit = ds := by
    simpa using takeWhile_all_append Char.isDigit ds hdd ('/') (by decide)
      (l2t ++ (tok ++ post))
  have h2 : (ds ++ ((('/') :: l2t) ++ (tok ++ post))).dropWhile Char.isDigit
      = ('/') :: (l2t ++ (tok ++ post)) := by
    simpa using dropWhile_all_append Char.isDigit ds hdd ('/') (by decide)
      (l2t ++ (tok ++ post))
  have h3 : (tok ++ post).takeWhile isLowerHex = tok := by
    cases post with
    | nil => simpa using takeWhile_all isLowerHex tok hth
    | cons q post' =>
      exact takeWhile_all_append isLowerHex tok hth q
        (hpost1 q (by simp [List.take])) post'
  unfold matchPat
  simp only [stripPfx_append, h1, h2, isEmpty_false_of_ne_nil hds, stripPfx,
    h3, isEmpty_false_of_ne_nil htok, Bool.false_eq_true, if_false,
    eq_self_iff_true, if_true]

theorem searchPat_cons_none (l1 l2 : List Char) (c : Char) (cs : List Char)
    (h : matchPat l1 l2 (c :: cs) = none) :
    searchPat l1 l2 (c :: cs) = searchPat l1 l2 cs := by
  simp only [searchPat, h]

theorem searchPat_cons_some (l1 l2 : List Char) (c : Char) (cs : List Char)
    (r : List Char × List Char) (h : matchPat l1 l2 (c :: cs) = some r) :
    searchPat l1 l2 (c :: cs) = some r := by
  simp only [searchPat, h]

/-- A pattern starting with a character can only match at positions holding
that character. -/
theorem matchPat_head_ne (c : Char) (l1t l2 : List Char) (x : Char) (xs : List Char)
    (hx : x ≠ c) : matchPat (c :: l1t) l2 (x :: xs) = none := by
  have hcx : ¬ (c = x) := fun he => hx (Eq.symm he)
  unfold matchPat
  simp only [stripPfx, if_neg hcx]

/-- Skipping a region that contains no occurrence of the pattern's first
character. -/
theorem searchPat_skip (l1t l2 xs m : List Char) (h : ∀ x ∈ xs, x ≠ ('h')) :
    searchPat (('h') :: l1t) l2 (xs ++ m) = searchPat (('h') :: l1t) l2 m := by
  induction xs with
  | nil => rfl
  | cons x xs ih =>
    rw [List.cons_append,
      searchPat_cons_none _ _ _ _
        (matchPat_head_ne ('h') l1t l2 x (xs ++ m) (h x (List.mem_cons_self x xs))),
      ih (fun y hy => h y (List.mem_cons_of_mem x hy))]

theorem searchPat_none_all_ne (l1t l2 xs : List Char) (h : ∀ x ∈ xs, x ≠ ('h')) :
    searchPat (('h') :: l1t) l2 xs = none := by
  have h0 := searchPat_skip l1t l2 xs [] h
  rw [List.append_nil] at h0
  rw [h0]
  rfl

theorem digit_ne_h {c : Char} (h : c.isDigit = true) : c ≠ ('h') := by
  intro he
  rw [he] at h
  exact absurd h (by decide)

theorem hex_ne_h {c : Char} (h : isLowerHex c = true) : c ≠ ('h') := by
  intro he
  rw [he] at h
  exact absurd h (by decide)

theorem matchPat_none_of_strip (l1 l2 s : List Char) (h : stripPfx l1 s = none) :
    matchPat l1 l2 s = none := by
  unfold matchPat
  simp only [h]

theorem strip_loc_on_127 (m : List Char) : stripPfx litLocalhost (lit127 ++ m) = none := rfl

theorem strip_127_on_loc (m : List Char) : stripPfx lit127 (litLocalhost ++ m) = none := rfl

theorem matchPat_loc_on_127 (l2 m : List Char) :
    matchPat litLocalhost l2 (lit127 ++ m) = none :=
  matchPat_none_of_strip _ _ _ (strip_loc_on_127 m)

theorem matchPat_127_on_loc (l2 m : List Char) :
    matchPat lit127 l2 (litLocalhost ++ m) = none :=
  matchPat_none_of_strip _ _ _ (strip_127_on_loc m)

theorem strip_lab_on_root (m : List Char) : stripPfx litLab (litRoot ++ m) = none := rfl

theorem strip_root_on_lab (m : List Char) : stripPfx litRoot (litLab ++ m) = none := rfl

/-- The right host literal with the wrong path literal fails at position
zero: the digits are consumed but the path literal mismatches. -/
theorem matchPat_wrongB (l1 l2' ds : List Char) (b : Char) (r : List Char)
    (hdd : ∀ c ∈ ds, c.isDigit = true) (hb : b.isDigit = false)
    (hstrip : stripPfx l2' (b :: r) = none) :
    matchPat l1 l2' (l1 ++ (ds ++ (b :: r))) = none := by
  have h1 : (ds ++ b :: r).takeWhile Char.isDigit = ds :=
    takeWhile_all_append _ ds hdd b hb r
  have h2 : (ds ++ b :: r).dropWhile Char.isDigit = b :: r :=
    dropWhile_all_append _ ds hdd b hb r
  unfold matchPat
  simp only [stripPfx_append, h1, h2, hstrip, ite_self]

theorem locA_shape (m : List Char) :
    litLocalhost ++ m = ('h') :: (locSeg1 ++ (('h') :: (locSeg2 ++ m))) := rfl

theorem a127_shape (m : List Char) :
    lit127 ++ m = ('h') :: (tail127 ++ m) := rfl

theorem matchPat_loc_at_host (l2 m : List Char) :
    matchPat litLocalhost l2 (('h') :: (locSeg2 ++ m)) = none := rfl

theorem matchPat_127_at_host (l2 m : List Char) :
    matchPat lit127 l2 (('h') :: (locSeg2 ++ m)) = none := rfl

/-- Scanning past a `localhost` head region when position zero already
failed: every interior position fails too. -/
theorem searchPat_consume_locA (l1t l2 m : List Char)
    (hin : ('h') :: l1t = litLocalhost ∨ ('h') :: l1t = lit127)
    (h0 : matchPat (('h') :: l1t) l2 (litLocalhost ++ m) = none) :
    searchPat (('h') :: l1t) l2 (litLocalhost ++ m)
      = searchPat (('h') :: l1t) l2 m := by
  rw [locA_shape] at h0 ⊢
  rw [searchPat_cons_none _ _ _ _ h0]
  rw [searchPat_skip _ _ locSeg1 _ (by decide)]
  have hmid : matchPat (('h') :: l1t) l2 (('h') :: (locSeg2 ++ m)) = none := by
    rcases hin with he | he
    · rw [he]
      exact matchPat_loc_at_host l2 m
    · rw [he]
      exact matchPat_127_at_host l2 m
  rw [searchPat_cons_none _ _ _ _ hmid]
  rw [searchPat_skip _ _ locSeg2 _ (by decide)]

/-- Scanning past a `127.0.0.1` head region when position zero already
failed. -/
theorem searchPat_consume_127A (l1t l2 m : List Char)
    (h0 : matchPat (('h') :: l1t) l2 (lit127 ++ m) = none) :
    searchPat (('h') :: l1t) l2 (lit127 ++ m)
      = searchPat (('h') :: l1t) l2 m := by
  rw [a127_shape] at h0 ⊢
  rw [searchPat_cons_none _ _ _ _ h0]
  rw [searchPat_skip _ _ tail127 _ (by decide)]

/-- After the host region, the digits, path literal, token and tail contain
no aitch, so the scan runs out without a match. -/
theorem searchPat_tail_none (l1t l2 B ds tok post : List Char)
    (hB : B = litLab ∨ B = litRoot)
    (hdd : ∀ c ∈ ds, c.isDigit = true) (hth : ∀ c ∈ tok, isLowerHex c = true)
    (hpost : ∀ c ∈ post, c ≠ ('h')) :
    searchPat (('h') :: l1t) l2 (ds ++ (B ++ (tok ++ post))) = none := by
  rw [searchPat_skip _ _ ds _ (fun x hx => digit_ne_h (hdd x hx))]
  rcases hB with rfl | rfl
  · rw [searchPat_skip _ _ litLab _ (by decide),
      searchPat_skip _ _ tok _ (fun x hx => hex_ne_h (hth x hx))]
    exact searchPat_none_all_ne _ _ _ hpost
  · rw [searchPat_skip _ _ litRoot _ (by decide),
      searchPat_skip _ _ tok _ (fun x hx => hex_ne_h (hth x hx))]
    exact searchPat_none_all_ne _ _ _ hpost

/-- A whole line built around one of the four URL shapes yields no match
for a pattern whose position-zero attempt fails. -/
theorem searchPat_line_none (l1 l2 A B pre ds tok post : List Char)
    (hl1 : l1 = litLocalhost ∨ l1 = lit127)
    (hA : A = litLocalhost ∨ A = lit127)
    (hB : B = litLab ∨ B = litRoot)
    (hpre : ∀ c ∈ pre, c ≠ ('h'))
    (hdd : ∀ c ∈ ds, c.isDigit = true) (hth : ∀ c ∈ tok, isLowerHex c = true)
    (hpost : ∀ c ∈ post, c ≠ ('h'))
    (h0 : matchPat l1 l2 (A ++ (ds ++ (B ++ (tok ++ post)))) = none) :
    searchPat l1 l2 (pre ++ (A ++ (ds ++ (B ++ (tok ++ post))))) = none := by
  obtain ⟨l1t, hl1t⟩ : ∃ t, l1 = ('h') :: t := by
    rcases hl1 with rfl | rfl
    · exact ⟨("ttp://localhost:").data, rfl⟩
    · exact ⟨("ttp://127.0.0.1:").data, rfl⟩
  subst hl1t
  rw [searchPat_skip _ _ pre _ hpre]
  rcases hA with rfl | rfl
  · rw [searchPat_consume_locA _ _ _ hl1 h0]
    exact searchPat_tail_none _ _ _ _ _ _ hB hdd hth hpost
  · rw [searchPat_consume_127A _ _ _ h0]
    exact searchPat_tail_none _ _ _ _ _ _ hB hdd hth hpost

/-- A whole line built around the URL shape a pattern expects matches at
the embedded URL, capturing exactly the embedded digits and token. -/
theorem searchPat_line_some (l1 l2t pre ds tok post : List Char)
    (hl1 : l1 = litLocalhost ∨ l1 = lit127)
    (hpre : ∀ c ∈ pre, c ≠ ('h'))
    (hds : ds ≠ []) (hdd : ∀ c ∈ ds, c.isDigit = true)
    (htok : tok ≠ []) (hth : ∀ c ∈ tok, isLowerHex c = true)
    (hpost1 : ∀ c ∈ post.take 1, isLowerHex c = false) :
    searchPat l1 (('/') :: l2t)
      (pre ++ (l1 ++ (ds ++ ((('/') :: l2t) ++ (tok ++ post)))))
      = some (ds, tok) := by
  obtain ⟨l1t, hl1t⟩ : ∃ t, l1 = ('h') :: t := by
    rcases hl1 with rfl | rfl
    · exact ⟨("ttp://localhost:").data, rfl⟩
    · exact ⟨("ttp://127.0.0.1:").data, rfl⟩
  subst hl1t
  rw [searchPat_skip _ _ pre _ hpre]
  rw [List.cons_append]
  refine searchPat_cons_some _ _ _ _ _ ?_
  rw [← List.cons_append]
  exact matchPat_some (('h') :: l1t) l2t ds tok post hds hdd htok hth hpost1

/-- Claim C1 (amended): for every line embedding one of the four supported
URL shapes (with surrounding text free of the letter aitch and not
extending the token with further hex characters), `_extract_jupyter_details`
captures the embedded port digits and token exactly, but rebuilds the base
URL as `http://localhost:<port>` regardless of the embedded host; a port
whose digits denote zero yields no match. -/
theorem c1_extraction_amended (hostLocal lab : Bool) (pre ds tok post : List Char)
    (hpre : ∀ c ∈ pre, c ≠ ('h')) (hds : ds ≠ [])
    (hdd : ∀ c ∈ ds, c.isDigit = true)
    (htok : tok ≠ []) (hth : ∀ c ∈ tok, isLowerHex c = true)
    (hpost : ∀ c ∈ post, c ≠ ('h'))
    (hpost1 : ∀ c ∈ post.take 1, isLowerHex c = false) :
    extractJupyterDetails (urlLine hostLocal lab pre ds tok post) =
      if 0 < digitsToNat ds then
        some ⟨digitsToNat ds, tok, litLocalhost ++ (Nat.repr (digitsToNat ds)).data⟩
      else none := by
  cases hostLocal <;> cases lab
  · -- host 127.0.0.1, no path segment
    have h1 : searchPat litLocalhost litLab
        (pre ++ (lit127 ++ (ds ++ (litRoot ++ (tok ++ post))))) = none :=
      searchPat_line_none _ _ _ _ _ _ _ _ (Or.inl rfl) (Or.inr rfl) (Or.inr rfl)
        hpre hdd hth hpost (matchPat_loc_on_127 _ _)
    have h2 : searchPat litLocalhost litRoot
        (pre ++ (lit127 ++ (ds ++ (litRoot ++ (tok ++ post))))) = none :=
      searchPat_line_none _ _ _ _ _ _ _ _ (Or.inl rfl) (Or.inr rfl) (Or.inr rfl)
        hpre hdd hth hpost (matchPat_loc_on_127 _ _)
    have h3 : searchPat lit127 litLab
        (pre ++ (lit127 ++ (ds ++ (litRoot ++ (tok ++ post))))) = none :=
      searchPat_line_none _ _ _ _ _ _ _ _ (Or.inr rfl) (Or.inr rfl) (Or.inr rfl)
        hpre hdd hth hpost
        (matchPat_wrongB lit127 litLab ds ('/') ((("?token=").data) ++ (tok ++ post))
          hdd (by decide) (strip_lab_on_root (tok ++ post)))
    have h4 : searchPat lit127 litRoot
        (pre ++ (lit127 ++ (ds ++ (litRoot ++ (tok ++ post))))) = some (ds, tok) :=
      searchPat_line_some lit127 (("?token=").data) pre ds tok post (Or.inr rfl)
        hpre hds hdd htok hth hpost1
    simp only [urlLine, extractJupyterDetails, tryPatterns, h1, h2, h3, h4]
  · -- host 127.0.0.1, with path segment
    have h1 : searchPat litLocalhost litLab
        (pre ++ (lit127 ++ (ds ++ (litLab ++ (tok ++ post))))) = none :=
      searchPat_line_none _ _ _ _ _ _ _ _ (Or.inl rfl) (Or.inr rfl) (Or.inl rfl)
        hpre hdd hth hpost (matchPat_loc_on_127 _ _)
    have h2 : searchPat litLocalhost litRoot
        (pre ++ (lit127 ++ (ds ++ (litLab ++ (tok ++ post))))) = none :=
      searchPat_line_none _ _ _ _ _ _ _ _ (Or.inl rfl) (Or.inr rfl) (Or.inl rfl)
        hpre hdd hth hpost (matchPat_loc_on_127 _ _)
    have h3 : searchPat lit127 litLab
        (pre ++ (lit127 ++ (ds ++ (litLab ++ (tok ++ post))))) = some (ds, tok) :=
      searchPat_line_some lit127 (("lab?token=").data) pre ds tok post (Or.inr rfl)
        hpre hds hdd htok hth hpost1
    have h4 : searchPat lit127 litRoot
        (pre ++ (lit127 ++ (ds ++ (litLab ++ (tok ++ post))))) = none :=
      searchPat_line_none _ _ _ _ _ _ _ _ (Or.inr rfl) (Or.inr rfl) (Or.inl rfl)
        hpre hdd hth hpost
        (matchPat_wrongB lit127 litRoot ds ('/') ((("lab?token=").data) ++ (tok ++ post))
          hdd (by decide) (strip_root_on_lab (tok ++ post)))
    simp only [urlLine, extractJupyterDetails, tryPatterns, h1, h2, h3, h4]
  · -- host localhost, no path segment
    have h1 : searchPat litLocalhost litLab
        (pre ++ (litLocalhost ++ (ds ++ (litRoot ++ (tok ++ post))))) = none :=
      searchPat_line_none _ _ _ _ _ _ _ _ (Or.inl rfl) (Or.inl rfl) (Or.inr rfl)
        hpre hdd hth hpost
        (matchPat_wrongB litLocalhost litLab ds ('/') ((("?token=").data) ++ (tok ++ post))
          hdd (by decide) (strip_lab_on_root (tok ++ post)))
    have h2 : searchPat litLocalhost litRoot
        (pre ++ (litLocalhost ++ (ds ++ (litRoot ++ (tok ++ post))))) = some (ds, tok) :=
      searchPat_line_some litLocalhost (("?token=").data) pre ds tok post (Or.inl rfl)
        hpre hds hdd htok hth hpost1
    have h3 : searchPat lit127 litLab
        (pre ++ (litLocalhost ++ (ds ++ (litRoot ++ (tok ++ post))))) = none :=
      searchPat_line_none _ _ _ _ _ _ _ _ (Or.inr rfl) (Or.inl rfl) (Or.inr rfl)
        hpre hdd hth hpost (matchPat_127_on_loc _ _)
    have h4 : searchPat lit127 litRoot
        (pre ++ (litLocalhost ++ (ds ++ (litRoot ++ (tok ++ post))))) = none :=
      searchPat_line_none _ _ _ _ _ _ _ _ (Or.inr rfl) (Or.inl rfl) (Or.inr rfl)
        hpre hdd hth hpost (matchPat_127_on_loc _ _)
    simp only [urlLine, extractJupyterDetails, tryPatterns, h1, h2, h3, h4]
  · -- host localhost, with path segment
    have h1 : searchPat litLocalhost litLab
        (pre ++ (litLocalhost ++ (ds ++ (litLab ++ (tok ++ post))))) = some (ds, tok) :=
      searchPat_line_some litLocalhost (("lab?token=").data) pre ds tok post (Or.inl rfl)
        hpre hds hdd htok hth hpost1
    have h2 : searchPat litLocalhost litRoot
        (pre ++ (litLocalhost ++ (ds ++ (litLab ++ (tok ++ post))))) = none :=
      searchPat_line_none _ _ _ _ _ _ _ _ (Or.inl rfl) (Or.inl rfl) (Or.inl rfl)
        hpre hdd hth hpost
        (matchPat_wrongB litLocalhost litRoot ds ('/') ((("lab?token=").data) ++ (tok ++ post))
          hdd (by decide) (strip_root_on_lab (tok ++ post)))
    have h3 : searchPat lit127 litLab
        (pre ++ (litLocalhost ++ (ds ++ (litLab ++ (tok ++ post))))) = none :=
      searchPat_line_none _ _ _ _ _ _ _ _ (Or.inr rfl) (Or.inl rfl) (Or.inl rfl)
        hpre hdd hth hpost (matchPat_127_on_loc _ _)
    have h4 : searchPat lit127 litRoot
        (pre ++ (litLocalhost ++ (ds ++ (litLab ++ (tok ++ post))))) = none :=
      searchPat_line_none _ _ _ _ _ _ _ _ (Or.inr rfl) (Or.inl rfl) (Or.inl rfl)
        hpre hdd hth hpost (matchPat_127_on_loc _ _)
    simp only [urlLine, extractJupyterDetails, tryPatterns, h1, h2, h3, h4]

/-- Claim C1 counterexample: on a line embedding the `127.0.0.1` host, the
extractor reports base URL `http://localhost:8888`, not the embedded
`http://127.0.0.1:8888` the claim requires. -/
theorem c1_extraction_counterexample :
    extractJupyterDetails (("http://127.0.0.1:8888/lab?token=abcdef0123456789").data)
      = some ⟨8888, ("abcdef0123456789").data, ("http://localhost:8888").data⟩
    ∧ ("http://localhost:8888").data ≠ ("http://127.0.0.1:8888").data := by
  constructor
  · rfl
  · decide

/-- Claim C1 witness: the amended theorem applied at a concrete line. -/
theorem c1_extraction_witness :
    extractJupyterDetails (urlLine true true [] (("8888").data)
        (("abcdef0123456789").data) []) =
      some ⟨8888, ("abcdef0123456789").data, litLocalhost ++ (Nat.repr 8888).data⟩ := by
  have h := c1_extraction_amended true true [] (("8888").data)
    (("abcdef0123456789").data) [] (by simp) (by decide) (by decide) (by decide)
    (by decide) (by simp) (by simp)
  rw [show digitsToNat (("8888").data) = 8888 from rfl] at h
  rw [h]
  rfl

/-- Claim C2 (code bug evidence): the token consisting of eight hex digits
followed by a newline contains a non-hex character, yet `validate_token`
accepts it (Python's dollar anchor also matches just before one trailing
newline) and `create_jupyter_environment` builds the full environment from
it instead of failing. -/
theorem c2_token_code_bug :
    validate_token (("abcdef01\n").data) = true
    ∧ (("abcdef01\n").data).all isLowerHex = false
    ∧ (create_jupyter_environment (("http://localhost:8888").data)
        (("abcdef01\n").data) (("nb.ipynb").data)).isSome = true := by
  refine ⟨rfl, rfl, rfl⟩

/-- Claim C3 (amended): on every successful run the discovery document has
the specified single-entry shape and shares the bridge's module-invocation
arguments and environment, but its command field is `sys.executable` (the
interpreter running the setup tool) while the bridge itself is launched
with the virtual-environment interpreter under the project directory. -/
theorem c3_config_amended (st : OrchFacts) (ev : List (List Char × List Char))
    (h : create_jupyter_environment st.jupyterUrl st.jupyterToken st.docId = some ev) :
    generateMcpConfigFile st
        = some ⟨[(("jupyter").data, ⟨st.sysExecutable, mcpArgs, ev⟩)]⟩
    ∧ startMcpLaunch st = some (venvPythonPath st.projectDir, mcpArgs, ev) := by
  constructor
  · simp [generateMcpConfigFile, h]
  · simp [startMcpLaunch, h]

/-- Claim C3 counterexample: with a concrete ambient interpreter and
project directory, the written command differs from the interpreter that
launches the bridge. -/
theorem c3_config_counterexample :
    ((generateMcpConfigFile
        ⟨("/usr/bin/python3").data, ("/proj").data, ("http://localhost:8888").data,
          ("abcdef0123456789").data, ("nb.ipynb").data⟩).map
      (fun c => c.mcpServers.map (fun kv => kv.2.command)))
      = some [("/usr/bin/python3").data]
    ∧ ((startMcpLaunch
        ⟨("/usr/bin/python3").data, ("/proj").data, ("http://localhost:8888").data,
          ("abcdef0123456789").data, ("nb.ipynb").data⟩).map (fun l => l.1))
      = some (("/proj/jupyter-mcp-env/bin/python").data)
    ∧ ("/usr/bin/python3").data ≠ ("/proj/jupyter-mcp-env/bin/python").data := by
  refine ⟨rfl, rfl, by decide⟩

/-- Claim C3 witness: the amended theorem at concrete facts. -/
theorem c3_config_witness :
    generateMcpConfigFile
        ⟨("/usr/bin/python3").data, ("/proj").data, ("http://localhost:8888").data,
          ("abcdef0123456789").data, ("nb.ipynb").data⟩
      = some ⟨[(("jupyter").data,
          ⟨("/usr/bin/python3").data, mcpArgs,
            [ (("TRANSPORT").data, ("stdio").data),
              (("PROVIDER").data, ("jupyter").data),
              (("DOCUMENT_URL").data, ("http://localhost:8888").data),
              (("DOCUMENT_TOKEN").data, ("abcdef0123456789").data),
              (("DOCUMENT_ID").data, ("nb.ipynb").data),
              (("RUNTIME_URL").data, ("http://localhost:8888").data),
              (("RUNTIME_TOKEN").data, ("abcdef0123456789").data),
              (("START_NEW_RUNTIME").data, ("true").data) ]⟩)]⟩
    ∧ startMcpLaunch
        ⟨("/usr/bin/python3").data, ("/proj").data, ("http://localhost:8888").data,
          ("abcdef0123456789").data, ("nb.ipynb").data⟩
      = some (venvPythonPath (("/proj").data), mcpArgs,
          [ (("TRANSPORT").data, ("stdio").data),
            (("PROVIDER").data, ("jupyter").data),
            (("DOCUMENT_URL").data, ("http://localhost:8888").data),
            (("DOCUMENT_TOKEN").data, ("abcdef0123456789").data),
            (("DOCUMENT_ID").data, ("nb.ipynb").data),
            (("RUNTIME_URL").data, ("http://localhost:8888").data),
            (("RUNTIME_TOKEN").data, ("abcdef0123456789").data),
            (("START_NEW_RUNTIME").data, ("true").data) ]) :=
  c3_config_amended _ _ rfl

/-- Claim C4 counterexample: the signal handler terminates the process with
exit code zero, not 130. -/
theorem c4_interrupt_counterexample :
    (signalHandlerRun ⟨some ⟨false, false⟩, some ⟨false, false⟩, true, true, false,
        ("/out").data, ("/proj").data⟩).2 = 0
    ∧ (signalHandlerRun ⟨some ⟨false, false⟩, some ⟨false, false⟩, true, true, false,
        ("/out").data, ("/proj").data⟩).2 ≠ 130 := by
  refine ⟨rfl, by decide⟩

/-- Claim C4 (amended): SIGINT and SIGTERM are both routed to the same
graceful handler, which performs cleanup and exits with code 0; exit code
130 is produced only for a KeyboardInterrupt reaching the CLI handler,
which can happen only before the signal handlers are installed. -/
theorem c4_interrupt_amended :
    (∀ s : Sig, installedHandler s = SigDisposition.gracefulHandler)
    ∧ (∀ e : CleanupEnv, (signalHandlerRun e).2 = 0)
    ∧ cliExitCode CliExcept.keyboardInterrupt = 130 := by
  refine ⟨fun s => ?_, fun e => rfl, rfl⟩
  cases s <;> rfl

theorem lookupKey_append_self (rest : List (List Char × JVal)) (k : List Char)
    (v : JVal) (h : lookupKey rest k = none) :
    lookupKey (rest ++ [(k, v)]) k = some v := by
  induction rest with
  | nil => simp [lookupKey]
  | cons p rest ih =>
    obtain ⟨k', v'⟩ := p
    simp only [List.cons_append, lookupKey] at h ⊢
    by_cases hk : k' = k
    · rw [if_pos hk] at h
      exact absurd h (by simp)
    · rw [if_neg hk] at h ⊢
      exact ih h

theorem setKey_append_self (rest : List (List Char × JVal)) (k : List Char)
    (v v' : JVal) (h : lookupKey rest k = none) :
    setKey (rest ++ [(k, v)]) k v' = rest ++ [(k, v')] := by
  induction rest with
  | nil => simp [setKey]
  | cons p rest ih =>
    obtain ⟨k', w⟩ := p
    simp only [List.cons_append, lookupKey] at h
    by_cases hk : k' = k
    · rw [if_pos hk] at h
      exact absurd h (by simp)
    · rw [if_neg hk] at h
      simp only [List.cons_append, setKey, if_neg hk]
      exact congrArg (fun l => (k', w) :: l) (ih h)

/-- Claim C5: on a settings document without the `enabledMcpjsonServers`
key, the update appends exactly that key with the singleton array,
preserving every pre-existing entry unchanged, and applying the update a
second time returns the document unchanged. -/
theorem c5_settings_update (rest : List (List Char × JVal)) (name : List Char)
    (h : lookupKey rest enabledKey = none) :
    update_enabled_mcp_servers name rest
        = some (rest ++ [(enabledKey, JVal.arr [JVal.str name])])
    ∧ update_enabled_mcp_servers name (rest ++ [(enabledKey, JVal.arr [JVal.str name])])
        = some (rest ++ [(enabledKey, JVal.arr [JVal.str name])]) := by
  constructor
  · have e1 := lookupKey_append_self rest enabledKey (JVal.arr []) h
    simp only [update_enabled_mcp_servers, h, e1, arrContainsStr, List.any_nil,
      Bool.false_eq_true, if_false, List.nil_append]
    rw [setKey_append_self rest enabledKey (JVal.arr []) (JVal.arr [JVal.str name]) h]
  · have e1 := lookupKey_append_self rest enabledKey (JVal.arr [JVal.str name]) h
    simp only [update_enabled_mcp_servers, e1, arrContainsStr, List.any_cons,
      List.any_nil, Bool.or_false, decide_eq_true_eq, eq_self_iff_true, if_true]

/-- Claim C5 witness: the update applied to a document holding only an
unrelated `theme` key. -/
theorem c5_settings_witness :
    update_enabled_mcp_servers (("jupyter").data)
        [((("theme").data), JVal.str (("dark").data))]
        = some ([((("theme").data), JVal.str (("dark").data))] ++
            [(enabledKey, JVal.arr [JVal.str (("jupyter").data)])])
    ∧ update_enabled_mcp_servers (("jupyter").data)
        ([((("theme").data), JVal.str (("dark").data))] ++
          [(enabledKey, JVal.arr [JVal.str (("jupyter").data)])])
        = some ([((("theme").data), JVal.str (("dark").data))] ++
            [(enabledKey, JVal.arr [JVal.str (("jupyter").data)])]) :=
  c5_settings_update _ _ rfl

/-- Claim C6: against a valid existing installation and without
`force_reinstall`, `install` takes the idempotent fast path: it performs
only the read-only probe import, no destructive action, and returns
success. -/
theorem c6_install_fast_path (w : InstallWorld)
    (h1 : w.pythonVersionOk = true) (h2 : w.venvExists = true)
    (h3 : w.structureValid = true) (h4 : w.importOk = true) :
    install w false = (Except.ok true, [InstallAction.probeImport])
    ∧ (install w false).2.all (fun a => !destructive a) = true := by
  have hmain : install w false = (Except.ok true, [InstallAction.probeImport]) := by
    simp [install, check_existing_installation, h1, h2, h3, h4]
  refine ⟨hmain, ?_⟩
  rw [hmain]
  rfl

/-- Claim C6 witness: the fast path at a concrete world. -/
theorem c6_install_witness :
    install ⟨true, true, true, true, true, true, fun _ => true, true, true⟩ false
        = (Except.ok true, [InstallAction.probeImport])
    ∧ (install ⟨true, true, true, true, true, true, fun _ => true, true, true⟩
        false).2.all (fun a => !destructive a) = true :=
  c6_install_fast_path _ rfl rfl rfl rfl

/-- Claim C7: whatever failures its individual steps hit, `cleanup` never
raises, and it attempts exactly the applicable steps in the fixed order
stop-MCP, stop-Jupyter, remove-config; the attempted-step list does not
depend on any injected failure. -/
theorem c7_cleanup_order (e : CleanupEnv) :
    cleanup e = Except.ok
      ((match e.mcp with
        | some _ => [CleanupStep.stopMcp]
        | none => [])
        ++ (match e.jup with
          | some _ => [CleanupStep.stopJup]
          | none => [])
        ++ (if e.cleanupOnExit && e.configExists then [CleanupStep.removeConfig]
          else [])) := by
  have hstop : ∀ p : ProcStop, tryStopBlock p = Except.ok () := by
    intro p
    obtain ⟨t, wt⟩ := p
    cases t <;> cases wt <;> rfl
  have hrem : ∀ e' : CleanupEnv,
      tryRemoveBlock e' = (if e'.cleanupOnExit && e'.configExists then
        [CleanupStep.removeConfig] else []) := by
    intro e'
    obtain ⟨m', j', co', ce', ur', od', pd'⟩ := e'
    cases co' <;> cases ce' <;> cases ur' <;> rfl
  obtain ⟨m, j, co, ce, ur, od, pd⟩ := e
  rcases m with _ | p1 <;> rcases j with _ | p2 <;>
    simp [cleanup, hstop, hrem, bind, Except.bind, pure, Except.pure]

theorem allPreceded_ite_remove (a b : Event) (hb : b ≠ Event.removeConfig)
    (c : Prop) [Decidable c] :
    allPreceded a b (if c then [Event.removeConfig] else []) = true := by
  have hrb : ¬ (Event.removeConfig = b) := fun he => hb (Eq.symm he)
  split
  · by_cases ha : Event.removeConfig = a
    · simp [allPreceded, if_neg hrb, if_pos ha]
    · simp [allPreceded, if_neg hrb, if_neg ha]
  · rfl

/-- Claim C8: in every run trace, the bridge launch only ever occurs after
connection facts were extracted, and the discovery document is only ever
written after the bridge was confirmed alive through the startup delay. -/
theorem c8_run_ordering (env : RunEnv) :
    allPreceded Event.extractFacts Event.launchBridge (runModel env).2 = true
    ∧ allPreceded Event.confirmBridge Event.writeMcpConfig (runModel env).2 = true := by
  obtain ⟨ext, docId, alive, cen, intr, clean, pre⟩ := env
  rcases ext with _ | ⟨port, tok⟩
  · constructor <;>
      simp [runModel, allPreceded, allPreceded_ite_remove]
  · by_cases hp : port = 0
    · constructor <;>
        simp [runModel, hp, allPreceded, allPreceded_ite_remove]
    · by_cases ht : tok.isEmpty = true
      · constructor <;>
          simp [runModel, hp, ht, allPreceded, allPreceded_ite_remove]
      · rcases hce : create_jupyter_environment (jupyterUrlOf port) tok docId
          with _ | ev
        · constructor <;>
            simp [runModel, hp, ht, hce, allPreceded, allPreceded_ite_remove]
        · cases alive
          · constructor <;>
              simp [runModel, hp, ht, hce, allPreceded, allPreceded_ite_remove]
          · cases intr <;> constructor <;>
              simp [runModel, hp, ht, hce, allPreceded, allPreceded_ite_remove]

/-- Claim C9 counterexample: the concrete write plan for the discovery
document fails the spec's atomicity criterion (no rename produces the
final path, which is opened for writing directly). -/
theorem c9_write_counterexample :
    atomicWritePlan (mcpConfigWritePlan (("/out/.mcp.json").data) (("payload").data))
      (("/out/.mcp.json").data) = false := by
  rfl

/-- Claim C9 (amended): every write of the discovery document opens the
final path directly, dumps the serialized config and closes it; no
temp-write-plus-rename is involved, so the write is not atomic in the
spec's sense and a concurrent reader may observe a partial file. -/
theorem c9_write_amended (p payload : List Char) :
    mcpConfigWritePlan p payload
        = [FileOp.openWrite p, FileOp.writeAll p payload, FileOp.closeF p]
    ∧ atomicWritePlan (mcpConfigWritePlan p payload) p = false := by
  constructor
  · rfl
  · simp [atomicWritePlan, mcpConfigWritePlan]

/-- Claim C10: cleanup deletes at most the discovery document
`<output_dir>/.mcp.json`; the client-integration settings file
`<project_dir>/.claude/settings.local.json` is never among the deleted
paths, whatever the directories are, so a settings modification made
during the run persists after cleanup. -/
theorem c10_cleanup_frame (e : CleanupEnv) :
    (cleanupDeletions e = [] ∨ cleanupDeletions e = [mcpConfigPathOf e.outputDir])
    ∧ ¬ (claudeSettingsPathOf e.projectDir ∈ cleanupDeletions e) := by
  have hne : ∀ a b : List Char,
      a ++ ("/.mcp.json").data ≠ b ++ ("/.claude/settings.local.json").data := by
    intro a b hEq
    have h5 : ((a ++ ("/.mcp.json").data).reverse)[5]? = some ('p') := by
      rw [List.reverse_append]
      rfl
    have h5' : ((b ++ ("/.claude/settings.local.json").data).reverse)[5]?
        = some ('l') := by
      rw [List.reverse_append]
      rfl
    rw [hEq] at h5
    have : some ('p') = some ('l') := h5.symm.trans h5'
    exact absurd this (by decide)
  obtain ⟨m, j, co, ce, ur, od, pd⟩ := e
  constructor
  · by_cases hc : (co && ce && !ur) = true
    · right
      simp [cleanupDeletions, hc]
    · left
      simp only [cleanupDeletions] at *
      rw [if_neg hc]
  · intro hmem
    by_cases hc : (co && ce && !ur) = true
    · simp only [cleanupDeletions, if_pos hc, List.mem_singleton] at hmem
      exact hne od pd ((congrArg id hmem).symm)
    · simp only [cleanupDeletions, if_neg hc] at hmem
      exact absurd hmem (List.not_mem_nil _)

/-- Claim C10 witness: the frame property at a concrete environment. -/
theorem c10_cleanup_frame_witness :
    (cleanupDeletions ⟨none, none, true, true, false, ("/out").data, ("/proj").data⟩
        = []
      ∨ cleanupDeletions ⟨none, none, true, true, false, ("/out").data,
          ("/proj").data⟩ = [mcpConfigPathOf (("/out").data)])
    ∧ ¬ (claudeSettingsPathOf (("/proj").data) ∈
        cleanupDeletions ⟨none, none, true, true, false, ("/out").data,
          ("/proj").data⟩) :=
  c10_cleanup_frame _

end JupyterMcpSetup
